import Mathlib

/-!
Verification of the OpenCut screen-to-GIF recorder core against its
natural-language specification.

The development shallowly embeds the two core modules:

* `src/gif_exporter.py` — the `GIFExporter` class.  Its `export_gif` method
  validates input, converts numpy frames to PIL images, quantizes them to
  palette mode and saves an animated GIF.  We model the structural content of
  each step (shapes, modes, the exact validation performed, the palette
  strategy, the save-call parameters and the exception handling) as pure
  functions; external library behaviour (PIL / the filesystem) is represented
  by an explicit effect trace plus a `backendOk` flag telling whether the
  final `save` call raises.

* `src/recorder.py` — the `ScreenRecorder` class, modelled as a state machine
  whose operations (`set_capture_area`, `start_recording`, one iteration of
  `_capture_loop`, `stop_recording`, `clear_frames`, and the read-only
  observers) act on an explicit `RecorderState`.

* the minimum-size check of the GUI `AreaSelector.on_release`
  (`src/gui.py`, lines 62-77).
-/

namespace OpenCut

/-- A numpy frame as handed to the exporter: a 3-dimensional array of shape
`(height, width, channels)` with a dtype string (`frame.shape`,
`frame.dtype` in the source).  Pixel contents are irrelevant to the claims
under study and are not modelled. -/
structure NDFrame where
  height : Nat
  width : Nat
  channels : Nat
  dtype : String
deriving DecidableEq

/-- PIL image modes that appear in the exporter source. -/
inductive PMode
  | RGB
  | RGBA
  | P
  | other
deriving DecidableEq

/-- A PIL image, structurally: its mode and dimensions. -/
structure PILImage where
  mode : PMode
  width : Nat
  height : Nat
deriving DecidableEq

/-- Lines 50-68 of `gif_exporter.py`: convert one numpy frame to a PIL image.
Dtype normalisation (lines 53-54) and the BGR channel reversal (lines 57-58)
change neither shape nor the resulting mode, so structurally the result
depends only on the channel count: 3 channels give an RGB image, 4 channels
give an RGBA image immediately converted to RGB, anything else falls through
to a bare `Image.fromarray`. -/
def frameToPIL (_colorMode : String) (f : NDFrame) : PILImage :=
  if f.channels = 3 then ⟨PMode.RGB, f.width, f.height⟩
  else if f.channels = 4 then ⟨PMode.RGB, f.width, f.height⟩
  else ⟨PMode.other, f.width, f.height⟩

/-- One quantization step performed by the exporter, recording which data the
palette of the produced P-mode frame is derived from.

* `adaptiveOwn i` — `img.convert('P', palette=Image.Palette.ADAPTIVE,
  colors=256)` applied to frame `i`: the palette is computed from frame `i`
  alone (the call's only image input is that frame).
* `keepP i` — frame `i` was already in P mode and is passed through.
* `sharedFrom k` — a quantization against one palette built from a composite
  of `k` sample frames.  This is the shared-palette strategy the
  specification describes; `export_gif` never produces it. -/
inductive QuantStep
  | adaptiveOwn (i : Nat)
  | keepP (i : Nat)
  | sharedFrom (k : Nat)
deriving DecidableEq

/-- Whether a quantization step uses a palette shared across frames. -/
def QuantStep.isShared : QuantStep → Bool
  | .sharedFrom _ => true
  | _ => false

/-- Parameters of a PIL `save` call as issued by the exporter.  A scalar
`duration=d` argument applies to all frames of the animation, which we render
as the per-frame list `List.replicate n d`; an empty `durations` list means no
duration argument was passed (the single-frame save calls). -/
structure SaveCall where
  durations : List Nat
  loop : Option Nat
  optimize : Bool
  disposal : Option Nat
deriving DecidableEq

/-- Externally visible actions of one `export_gif` call, in program order. -/
inductive Effect
  | makedirs
  | quantize (q : QuantStep)
  | saveAttempt (c : SaveCall)
  | removeFile
deriving DecidableEq

/-- Errors that an export can raise.  `noFrames` is the
`ValueError("No frames to export")` of line 39 — the specification's
`EmptySequenceError`.  `dimensionMismatch` is the specification's
`DimensionMismatchError`; it is listed so that its absence from the code's
behaviour is expressible. -/
inductive ExportError
  | noFrames
  | dimensionMismatch
deriving DecidableEq

/-- Outcome of an `export_gif` call: either an exception propagated to the
caller (`raised`), or a normal return of a boolean (`returned`); in both
cases together with the effects performed before returning. -/
inductive Outcome
  | raised (e : ExportError) (effects : List Effect)
  | returned (ok : Bool) (effects : List Effect)
deriving DecidableEq

/-- The `GIFExporter` object: its only state is `self.default_fps = 15`. -/
structure GIFExporter where
  default_fps : Nat
deriving DecidableEq

/-- The exporter as constructed by `GIFExporter.__init__`. -/
def mkExporter : GIFExporter := ⟨15⟩

/-- Line 41, `fps = fps or self.default_fps`: Python `or` replaces both
`None` and the falsy `0` by the default. -/
def effFps (e : GIFExporter) (fps : Option Nat) : Nat :=
  match fps with
  | none => e.default_fps
  | some 0 => e.default_fps
  | some n => n

/-- Lines 77-85 of `export_gif`: the per-frame quantization loop over the PIL
frames.  Each image not already in P mode is converted with an adaptive
palette computed from that image alone; images already in P mode are kept.
The index argument records the position of the frame being processed. -/
def quantSteps : Nat → List PILImage → List QuantStep
  | _, [] => []
  | i, img :: rest =>
    (if img.mode = PMode.P then QuantStep.keepP i else QuantStep.adaptiveOwn i)
      :: quantSteps (i + 1) rest

/-- The `GIFExporter.export_gif` method (lines 19-111), embedded.

`backendOk` tells whether the underlying PIL `save` call succeeds; when it
raises, the `except` block of lines 107-111 catches the exception, prints it
and returns `False` — nothing is re-raised and no cleanup is performed.

The emptiness check of lines 38-39 runs before the `try` block and before any
filesystem work, so an empty input raises with an empty effect list.  No
other input validation exists: frame dimensions are never compared. -/
def exportGif (e : GIFExporter) (backendOk : Bool) (frames : List NDFrame)
    (fps : Option Nat) (quality : Option String) (colorMode : String) : Outcome :=
  match frames with
  | [] => Outcome.raised ExportError.noFrames []
  | f0 :: rest =>
    let f := effFps e fps
    let _quality := quality.getD "medium"
    let pil0 := frameToPIL colorMode f0
    let pilRest := rest.map (frameToPIL colorMode)
    let duration := 1000 / f
    if rest.isEmpty then
      let save0 : SaveCall := ⟨[], none, true, none⟩
      if pil0.mode = PMode.P then
        Outcome.returned backendOk [Effect.makedirs, Effect.saveAttempt save0]
      else
        Outcome.returned backendOk
          [Effect.makedirs, Effect.quantize (QuantStep.adaptiveOwn 0),
            Effect.saveAttempt save0]
    else
      let steps := quantSteps 0 (pil0 :: pilRest)
      let save : SaveCall :=
        ⟨List.replicate (pil0 :: pilRest).length duration, some 0, true, some 2⟩
      Outcome.returned backendOk
        (Effect.makedirs :: (steps.map Effect.quantize ++ [Effect.saveAttempt save]))

/-- Whether an outcome is a propagated exception. -/
def Outcome.isRaised : Outcome → Bool
  | .raised _ _ => true
  | .returned _ _ => false

/-- The effects performed by an export, whichever way it ended. -/
def Outcome.effects : Outcome → List Effect
  | .raised _ effs => effs
  | .returned _ effs => effs

/-- The boolean value returned to the caller, if the call returned normally. -/
def Outcome.returnValue : Outcome → Option Bool
  | .raised _ _ => none
  | .returned b _ => some b

/-- Project a quantization step out of an effect. -/
def quantProj : Effect → Option QuantStep
  | Effect.quantize q => some q
  | _ => none

/-- Project a save call out of an effect. -/
def saveProj : Effect → Option SaveCall
  | Effect.saveAttempt c => some c
  | _ => none

/-- The quantization steps recorded in an outcome's effect trace. -/
def Outcome.quantTrace (o : Outcome) : List QuantStep :=
  o.effects.filterMap quantProj

/-- The save calls recorded in an outcome's effect trace. -/
def Outcome.saveCalls (o : Outcome) : List SaveCall :=
  o.effects.filterMap saveProj

/-- Result of `GIFExporter.get_frame_info` (lines 357-370) on a non-empty
frame list. -/
structure FrameInfo where
  count : Nat
  width : Nat
  height : Nat
  channels : Nat
  dtype : String
  duration_seconds : ℚ
deriving DecidableEq

/-- The `GIFExporter.get_frame_info` method: on an empty list it returns an
empty dict (`none` here); otherwise a summary taken from the first frame,
with `duration_seconds = len(frames) / self.default_fps` — note the use of
the exporter's default fps, not any fps chosen for encoding. -/
def get_frame_info (e : GIFExporter) (frames : List NDFrame) : Option FrameInfo :=
  match frames with
  | [] => none
  | first :: _ =>
    some
      { count := frames.length
        width := first.width
        height := first.height
        channels := first.channels
        dtype := first.dtype
        duration_seconds := (frames.length : ℚ) / (e.default_fps : ℚ) }

/-- Errors a recorder operation can raise.  `captureAreaNotSet` is the
`ValueError("Capture area not set")` of line 37 of `recorder.py` — the
specification's `NoRegionConfiguredError`.  `alreadyRunning` is the
specification's `AlreadyRunningError`; it is listed so that its absence from
the code's behaviour is expressible, and the code never raises it.
`invalidRegion` likewise stands for the specification's `InvalidRegionError`,
never raised by the code. -/
inductive RecorderError
  | captureAreaNotSet
  | alreadyRunning
  | invalidRegion
deriving DecidableEq

/-- The mutable state of a `ScreenRecorder`, as set up by `__init__`
(lines 17-25 of `recorder.py`).  The thread handle and the frame callback are
not modelled; `stop_event` is the boolean state of the `threading.Event`. -/
structure RecorderState where
  recording : Bool
  frames : List NDFrame
  capture_area : Option (Int × Int × Int × Int)
  fps : Nat
  stop_event : Bool
  frame_count : Nat
deriving DecidableEq

/-- The state produced by `ScreenRecorder.__init__`. -/
def initRecorder : RecorderState :=
  { recording := false
    frames := []
    capture_area := none
    fps := 15
    stop_event := false
    frame_count := 0 }

/-- The `ScreenRecorder.set_capture_area` method (lines 27-29): it stores the
given rectangle unconditionally — no size validation of any kind. -/
def set_capture_area (s : RecorderState) (x y width height : Int) : RecorderState :=
  { s with capture_area := some (x, y, width, height) }

/-- The `ScreenRecorder.start_recording` method (lines 31-47).  When already
recording it returns `False` at line 34, touching no state.  When no capture
area is set it raises.  Otherwise it resets the frame store and counter,
clears the stop event, marks the recorder active, spawns the capture thread
(not modelled) and returns `True`. -/
def start_recording (s : RecorderState) : Except RecorderError (Bool × RecorderState) :=
  if s.recording then Except.ok (false, s)
  else
    match s.capture_area with
    | none => Except.error RecorderError.captureAreaNotSet
    | some _ =>
      Except.ok (true,
        { s with recording := true, frames := [], frame_count := 0, stop_event := false })

/-- The `ScreenRecorder.stop_recording` method (lines 49-60).  When not
recording it returns the empty list at line 52 without touching any state —
in particular it does not return previously accumulated frames.  Otherwise it
clears the active flag, sets the stop event, joins the capture thread (not
modelled) and returns `self.frames.copy()`; in this pure embedding the
returned list is the value of `frames` at that moment, which no later state
change can affect. -/
def stop_recording (s : RecorderState) : List NDFrame × RecorderState :=
  if s.recording then
    (s.frames, { s with recording := false, stop_event := true })
  else ([], s)

/-- Line 81 of `_capture_loop`: `img[:, :, :3][:, :, ::-1]` drops the alpha
channel of the BGRA screenshot and reverses the channel order, leaving a
3-channel frame of the same height and width. -/
def processGrab (g : NDFrame) : NDFrame :=
  { g with channels := 3 }

/-- One iteration of the `while` loop of `ScreenRecorder._capture_loop`
(lines 70-97).  The loop body runs only while `recording` is set and the stop
event is clear.  `grab` is the result of `sct.grab`: `some g` for a
successful screenshot, `none` when the grab raises — in which case the
`except` block of lines 90-91 merely logs and the iteration changes nothing.
A successful grab appends exactly one processed frame and increments the
counter by one (lines 83-84); the frame callback (lines 87-88) does not touch
recorder state.  The timing of lines 93-97 has no state effect. -/
def capture_iteration (s : RecorderState) (grab : Option NDFrame) : RecorderState :=
  if s.recording && !s.stop_event then
    match grab with
    | some g =>
      { s with frames := s.frames ++ [processGrab g], frame_count := s.frame_count + 1 }
    | none => s
  else s

/-- The `ScreenRecorder.is_recording` observer (lines 99-101). -/
def is_recording (s : RecorderState) : Bool := s.recording

/-- The `ScreenRecorder.get_frame_count` observer (lines 103-105). -/
def get_frame_count (s : RecorderState) : Nat := s.frame_count

/-- The `ScreenRecorder.clear_frames` method (lines 107-110): resets the
frame store and the counter together. -/
def clear_frames (s : RecorderState) : RecorderState :=
  { s with frames := [], frame_count := 0 }

/-- One recorder operation, for reasoning about arbitrary interleavings of
the public interface with capture-loop iterations. -/
inductive RecOp
  | setArea (x y width height : Int)
  | start
  | stop
  | capture (grab : Option NDFrame)
  | clear
deriving DecidableEq

/-- Apply one operation to a recorder state, keeping only the state (return
values and raised errors leave the state as the method left it: a failed
`start_recording` raises before mutating anything). -/
def applyOp (s : RecorderState) : RecOp → RecorderState
  | RecOp.setArea x y w h => set_capture_area s x y w h
  | RecOp.start =>
    match start_recording s with
    | Except.ok (_, s₂) => s₂
    | Except.error _ => s
  | RecOp.stop => (stop_recording s).2
  | RecOp.capture g => capture_iteration s g
  | RecOp.clear => clear_frames s

/-- Run a sequence of operations from a state. -/
def runOps (s : RecorderState) (ops : List RecOp) : RecorderState :=
  ops.foldl applyOp s

/-- The invariant relating the frame counter to the frame store. -/
def recorderInv (s : RecorderState) : Prop :=
  s.frame_count = s.frames.length

instance (s : RecorderState) : Decidable (recorderInv s) := by
  unfold recorderInv; infer_instance

/-- The minimum-size acceptance test of `AreaSelector.on_release`
(`src/gui.py`, lines 62-77): the callback is invoked only when both drag
start coordinates are truthy (Python `if self.start_x and self.start_y`, so a
coordinate equal to 0 falls through) and the normalised rectangle is strictly
larger than 10 pixels in both directions; otherwise a warning is shown and no
region is delivered. -/
def onReleaseAccepts (startX startY eventX eventY : Int) : Bool :=
  if startX = 0 || startY = 0 then false
  else
    let x1 := min startX eventX
    let y1 := min startY eventY
    let x2 := max startX eventX
    let y2 := max startY eventY
    let width := x2 - x1
    let height := y2 - y1
    decide (width > 10) && decide (height > 10)

/-! Helper lemmas shared by the claim theorems. -/

theorem frameToPIL_mode_ne_P (cm : String) (f : NDFrame) :
    (frameToPIL cm f).mode ≠ PMode.P := by
  unfold frameToPIL
  split_ifs <;> simp

theorem quantSteps_no_P (l : List PILImage) (hl : ∀ img ∈ l, img.mode ≠ PMode.P) :
    ∀ i, quantSteps i l = (List.range l.length).map fun j => QuantStep.adaptiveOwn (i + j) := by
  induction l with
  | nil => intro i; simp [quantSteps]
  | cons img rest ih =>
    intro i
    have himg : ¬img.mode = PMode.P := hl img (List.mem_cons_self _ _)
    have hrest := ih (fun x hx => hl x (List.mem_cons_of_mem _ hx)) (i + 1)
    simp only [quantSteps, if_neg himg, hrest, List.length_cons, List.range_succ_eq_map,
      List.map_cons, List.map_map, List.cons_eq_cons]
    refine ⟨by simp, List.map_congr_left fun j _ => ?_⟩
    simp only [Function.comp_apply]
    congr 1
    omega

theorem filterMap_quantProj (steps : List QuantStep) (c : SaveCall) :
    ((steps.map Effect.quantize) ++ [Effect.saveAttempt c]).filterMap quantProj = steps := by
  induction steps with
  | nil => rfl
  | cons a l ih => simp [List.filterMap_cons, quantProj, ih]

theorem filterMap_saveProj (steps : List QuantStep) (c : SaveCall) :
    ((steps.map Effect.quantize) ++ [Effect.saveAttempt c]).filterMap saveProj = [c] := by
  induction steps with
  | nil => rfl
  | cons a l ih => simp [List.filterMap_cons, saveProj, ih]

theorem quantTrace_multi (b : Bool) (steps : List QuantStep) (c : SaveCall) :
    (Outcome.returned b
      (Effect.makedirs :: (steps.map Effect.quantize ++ [Effect.saveAttempt c]))).quantTrace
      = steps := by
  simp only [Outcome.quantTrace, Outcome.effects, List.filterMap_cons, quantProj]
  exact filterMap_quantProj steps c

theorem saveCalls_multi (b : Bool) (steps : List QuantStep) (c : SaveCall) :
    (Outcome.returned b
      (Effect.makedirs :: (steps.map Effect.quantize ++ [Effect.saveAttempt c]))).saveCalls
      = [c] := by
  simp only [Outcome.saveCalls, Outcome.effects, List.filterMap_cons, saveProj]
  exact filterMap_saveProj steps c

theorem exportGif_multi (e : GIFExporter) (b : Bool) (f0 f1 : NDFrame) (rest : List NDFrame)
    (fps : Option Nat) (q : Option String) (cm : String) :
    exportGif e b (f0 :: f1 :: rest) fps q cm
      = Outcome.returned b
          (Effect.makedirs ::
            ((quantSteps 0 (frameToPIL cm f0 :: (f1 :: rest).map (frameToPIL cm))).map
                Effect.quantize ++
              [Effect.saveAttempt
                ⟨List.replicate (rest.length + 2) (1000 / effFps e fps), some 0, true, some 2⟩])) := by
  simp [exportGif]

theorem exportGif_multi_quantTrace (e : GIFExporter) (b : Bool) (f0 f1 : NDFrame)
    (rest : List NDFrame) (fps : Option Nat) (q : Option String) (cm : String) :
    (exportGif e b (f0 :: f1 :: rest) fps q cm).quantTrace
      = (List.range (rest.length + 2)).map QuantStep.adaptiveOwn := by
  rw [exportGif_multi, quantTrace_multi]
  have hl : ∀ img ∈ frameToPIL cm f0 :: (f1 :: rest).map (frameToPIL cm),
      img.mode ≠ PMode.P := by
    intro img hmem
    rcases List.mem_cons.mp hmem with h | h
    · rw [h]; exact frameToPIL_mode_ne_P cm f0
    · rcases List.mem_map.mp h with ⟨a, _, rfl⟩
      exact frameToPIL_mode_ne_P cm a
  rw [quantSteps_no_P _ hl 0]
  simp

/-! Claim theorems. -/

/-- C1, counterexample: with quality `low` and two frames, `export_gif` runs
an adaptive-palette conversion on each frame separately; no step of the trace
quantizes against a palette shared across frames, contradicting the claim
that `low` quality uses a single shared palette computed from sample
frames. -/
theorem export_gif_low_quality_uses_per_frame_palette_cex :
    (exportGif mkExporter true [⟨100, 100, 3, "uint8"⟩, ⟨100, 100, 3, "uint8"⟩]
        (some 15) (some "low") "RGB").quantTrace
      = [QuantStep.adaptiveOwn 0, QuantStep.adaptiveOwn 1]
    ∧ ((exportGif mkExporter true [⟨100, 100, 3, "uint8"⟩, ⟨100, 100, 3, "uint8"⟩]
        (some 15) (some "low") "RGB").quantTrace).all QuantStep.isShared = false := by
  exact ⟨rfl, rfl⟩

/-- C1, amended: for every frame sequence of length at least 2, `export_gif`
quantizes frame `i` with an adaptive palette computed from frame `i` alone,
whatever the quality setting — the `quality` argument does not influence the
palette strategy at all (per-frame adaptive in every case; no shared
palette). -/
theorem export_gif_quality_ignored_per_frame_adaptive
    (e : GIFExporter) (b : Bool) (f0 f1 : NDFrame) (rest : List NDFrame)
    (fps : Option Nat) (q₁ q₂ : Option String) (cm : String) :
    (exportGif e b (f0 :: f1 :: rest) fps q₁ cm).quantTrace
      = (List.range (f0 :: f1 :: rest).length).map QuantStep.adaptiveOwn
    ∧ (exportGif e b (f0 :: f1 :: rest) fps q₁ cm).quantTrace
      = (exportGif e b (f0 :: f1 :: rest) fps q₂ cm).quantTrace := by
  have key : ∀ q : Option String,
      (exportGif e b (f0 :: f1 :: rest) fps q cm).quantTrace
        = (List.range (rest.length + 2)).map QuantStep.adaptiveOwn :=
    fun q => exportGif_multi_quantTrace e b f0 f1 rest fps q cm
  exact ⟨by rw [key q₁]; simp, by rw [key q₁, key q₂]⟩

/-- C2, counterexample: at 15 frames per second the code writes a per-frame
duration of `int(1000 / 15) = 66` milliseconds, while `round(1000 / 15) =
67`, so the written duration is not `round(1000 / f)`. -/
theorem export_gif_duration_not_round_cex :
    (exportGif mkExporter true [⟨100, 100, 3, "uint8"⟩, ⟨100, 100, 3, "uint8"⟩]
        (some 15) none "RGB").saveCalls
      = [⟨[66, 66], some 0, true, some 2⟩]
    ∧ round ((1000 : ℚ) / 15) = 67 := by
  refine ⟨rfl, ?_⟩
  rw [round_eq]
  norm_num

/-- C2, amended: for sequences of at least two frames and positive `f`, the
save call passes a duration of `1000 / f` truncated (floor) milliseconds,
applied identically to every frame; a single-frame export passes no duration
argument at all. -/
theorem export_gif_duration_is_floor (e : GIFExporter) (b : Bool) (f0 f1 : NDFrame)
    (rest : List NDFrame) (f : Nat) (hf : 0 < f) (q : Option String) (cm : String) :
    (exportGif e b (f0 :: f1 :: rest) (some f) q cm).saveCalls
      = [⟨List.replicate (rest.length + 2) (1000 / f), some 0, true, some 2⟩]
    ∧ (exportGif e b [f0] (some f) q cm).saveCalls = [⟨[], none, true, none⟩] := by
  have heff : effFps e (some f) = f := by
    cases f with
    | zero => omega
    | succ k => rfl
  constructor
  · rw [exportGif_multi, saveCalls_multi, heff]
  · simp only [exportGif, List.isEmpty_nil, if_pos]
    split_ifs <;>
      simp [Outcome.saveCalls, Outcome.effects, List.filterMap_cons, saveProj]

/-- C2, witness: the amended duration theorem applied at two 100×100 frames
and 15 frames per second. -/
theorem export_gif_duration_is_floor_witness :
    (exportGif mkExporter true [⟨100, 100, 3, "uint8"⟩, ⟨100, 100, 3, "uint8"⟩]
        (some 15) none "RGB").saveCalls
      = [⟨List.replicate 2 66, some 0, true, some 2⟩]
    ∧ (exportGif mkExporter true [⟨100, 100, 3, "uint8"⟩] (some 15) none "RGB").saveCalls
      = [⟨[], none, true, none⟩] :=
  export_gif_duration_is_floor mkExporter true ⟨100, 100, 3, "uint8"⟩ ⟨100, 100, 3, "uint8"⟩
    [] 15 (by decide) none "RGB"

/-- C3, counterexample: 30 frames encoded at 30 frames per second should,
per the claim, report an estimated duration of `30 / 30 = 1` second; the
code's `get_frame_info` reports `30 / default_fps = 30 / 15 = 2` seconds,
because it uses the exporter's default fps, not the fps used for encoding
(which it is never told). -/
theorem get_frame_info_ignores_encoding_fps_cex :
    (get_frame_info mkExporter
        (List.replicate 30 ⟨100, 100, 3, "uint8"⟩)).map FrameInfo.duration_seconds
      = some 2
    ∧ ((30 : ℚ) / 30 = 1 ∧ (2 : ℚ) ≠ 1) := by
  refine ⟨?_, by norm_num, by norm_num⟩
  show some ((30 : ℚ) / 15) = some 2
  norm_num

/-- C3, amended / corrected: for every non-empty frame list,
`get_frame_info` reports a duration of `count / default_fps` seconds with the
default fps fixed at 15 by the constructor, under the key `duration_seconds`;
the fps used for encoding plays no part (the method is not given one). -/
theorem get_frame_info_uses_default_fps (first : NDFrame) (rest : List NDFrame) :
    get_frame_info mkExporter (first :: rest)
      = some
          { count := rest.length + 1
            width := first.width
            height := first.height
            channels := first.channels
            dtype := first.dtype
            duration_seconds := ((rest.length : ℚ) + 1) / 15 } := by
  simp [get_frame_info, mkExporter]

/-- C4, counterexample: a two-frame sequence whose second frame is 200×50
while the first is 100×100 is not rejected: `export_gif` performs no
dimension comparison, quantizes both frames and attempts the save, returning
`True` when the backend succeeds — it never raises `DimensionMismatchError`
on any input. -/
theorem export_gif_dimension_mismatch_not_rejected_cex :
    exportGif mkExporter true [⟨100, 100, 3, "uint8"⟩, ⟨50, 200, 3, "uint8"⟩]
        (some 15) none "RGB"
      = Outcome.returned true
          [Effect.makedirs, Effect.quantize (QuantStep.adaptiveOwn 0),
            Effect.quantize (QuantStep.adaptiveOwn 1),
            Effect.saveAttempt ⟨[66, 66], some 0, true, some 2⟩] := by
  rfl

/-- C4, amended: the only input validation in `export_gif` is the emptiness
check — the call raises exactly on the empty list (and then with `noFrames`,
never with `dimensionMismatch`); every non-empty sequence, dimension
mismatches included, proceeds into conversion and save. -/
theorem export_gif_no_dimension_check (e : GIFExporter) (b : Bool) (frames : List NDFrame)
    (fps : Option Nat) (q : Option String) (cm : String) :
    (exportGif e b frames fps q cm).isRaised = frames.isEmpty := by
  cases frames with
  | nil => rfl
  | cons f0 rest =>
    simp only [exportGif, List.isEmpty_cons]
    split
    · split <;> rfl
    · rfl

/-- C7, counterexample: when the backend save call raises, `export_gif`
catches the exception and returns `False` — the outcome is a normal return,
not a propagated error, and the effect trace ends with the failed save
attempt with no subsequent removal of the possibly partial file. -/
theorem export_gif_backend_failure_not_raised_cex :
    exportGif mkExporter false [⟨100, 100, 3, "uint8"⟩, ⟨100, 100, 3, "uint8"⟩]
        (some 15) none "RGB"
      = Outcome.returned false
          [Effect.makedirs, Effect.quantize (QuantStep.adaptiveOwn 0),
            Effect.quantize (QuantStep.adaptiveOwn 1),
            Effect.saveAttempt ⟨[66, 66], some 0, true, some 2⟩]
    ∧ (exportGif mkExporter false [⟨100, 100, 3, "uint8"⟩, ⟨100, 100, 3, "uint8"⟩]
        (some 15) none "RGB").isRaised = false := by
  exact ⟨rfl, rfl⟩

/-- C7, amended: for every non-empty input whose backend save fails, the
exception is swallowed by the `except` block: the caller receives the return
value `False` (no error object), and no cleanup of a partial output file is
ever performed (no removal appears in the effect trace). -/
theorem export_gif_backend_failure_returns_false (e : GIFExporter) (f0 : NDFrame)
    (rest : List NDFrame) (fps : Option Nat) (q : Option String) (cm : String) :
    (exportGif e false (f0 :: rest) fps q cm).returnValue = some false
    ∧ Effect.removeFile ∉ (exportGif e false (f0 :: rest) fps q cm).effects := by
  simp only [exportGif]
  split
  · split <;> simp [Outcome.returnValue, Outcome.effects]
  · refine ⟨rfl, ?_⟩
    simp only [Outcome.effects, List.mem_cons, List.mem_append, List.mem_map,
      List.mem_singleton]
    rintro (h | ⟨⟨a, -, h⟩ | h⟩) <;> exact absurd h (by simp)

/-- C8, confirmed: on the empty frame list `export_gif` raises the
`ValueError("No frames to export")` of line 39 (the specification's
`EmptySequenceError`) before the `try` block, for every backend state and
every other argument — with an empty effect trace, so no directory creation,
no conversion and no file write has happened. -/
theorem export_gif_empty_raises_immediately (e : GIFExporter) (b : Bool)
    (fps : Option Nat) (q : Option String) (cm : String) :
    exportGif e b [] fps q cm = Outcome.raised ExportError.noFrames [] := by
  rfl

/-- A concrete recorder state in the middle of a recording, used by
counterexamples and witnesses: one frame captured, area configured. -/
def activeRecorder : RecorderState :=
  { recording := true
    frames := [⟨100, 100, 3, "uint8"⟩]
    capture_area := some (0, 0, 100, 100)
    fps := 15
    stop_event := false
    frame_count := 1 }

/-- A concrete recorder state after a finished recording: inactive, but with
the frames of the earlier session still stored. -/
def idleRecorderWithFrames : RecorderState :=
  { recording := false
    frames := [⟨100, 100, 3, "uint8"⟩]
    capture_area := some (0, 0, 100, 100)
    fps := 15
    stop_event := true
    frame_count := 1 }

/-- C5, counterexample: calling `start_recording` on a recorder that is
already recording returns `False` with the state untouched — an `Except.ok`,
not the `AlreadyRunningError` the claim requires. -/
theorem start_recording_when_active_no_error_cex :
    start_recording activeRecorder = Except.ok (false, activeRecorder)
    ∧ start_recording activeRecorder ≠ Except.error RecorderError.alreadyRunning := by
  refine ⟨rfl, fun h => ?_⟩
  rw [show start_recording activeRecorder = Except.ok (false, activeRecorder) from rfl] at h
  exact Except.noConfusion h

/-- C5, amended: whenever the recorder is already active, a second
`start_recording` call is rejected by returning `False` (line 34) rather
than by raising; no exception is thrown and the recorder state is
unchanged. -/
theorem start_recording_when_active_returns_false (s : RecorderState)
    (h : s.recording = true) :
    start_recording s = Except.ok (false, s) := by
  simp [start_recording, h]

/-- C5, witness: the amended theorem applied to a concrete active
recorder. -/
theorem start_recording_when_active_returns_false_witness :
    start_recording
        { recording := true
          frames := []
          capture_area := some (0, 0, 100, 100)
          fps := 15
          stop_event := false
          frame_count := 0 }
      = Except.ok (false,
          { recording := true
            frames := []
            capture_area := some (0, 0, 100, 100)
            fps := 15
            stop_event := false
            frame_count := 0 }) :=
  start_recording_when_active_returns_false _ rfl

/-- C6, counterexample: `set_capture_area` with width 5 and height 5 does
not fail — it stores the undersized region, so a region is configured
afterwards, contradicting both the `InvalidRegionError` and the
no-region-configured parts of the claim. -/
theorem set_capture_area_small_region_configured_cex :
    (set_capture_area initRecorder 0 0 5 5).capture_area = some (0, 0, 5, 5) := by
  rfl

/-- C6, amended: `set_capture_area` performs no validation whatsoever and
stores any rectangle, a 5×5 one included; the only minimum-size enforcement
in the program is in the GUI `AreaSelector.on_release`, which refuses to
deliver a drag-selected rectangle of width or height at most 10 pixels (for
example a 5×5 drag) and passes one strictly larger than 10 pixels in both
directions. -/
theorem set_capture_area_accepts_any_region :
    (∀ (s : RecorderState) (x y w h : Int),
      (set_capture_area s x y w h).capture_area = some (x, y, w, h))
    ∧ onReleaseAccepts 20 20 25 25 = false
    ∧ onReleaseAccepts 20 20 31 31 = true := by
  exact ⟨fun _ _ _ _ _ => rfl, by decide, by decide⟩

/-- C9, the invariant and the per-operation behaviour it rests on: starting
from a fresh recorder, after any sequence of operations `get_frame_count`
returns the length of the internal frame list; moreover a successful start
resets frames and counter together, a successful capture iteration appends
exactly one processed frame and increments the counter by one, a failed grab
changes nothing, stopping never touches frames or counter, and
`clear_frames` resets both together. -/
theorem recorder_frame_count_matches_frames :
    (∀ ops : List RecOp,
      get_frame_count (runOps initRecorder ops) = (runOps initRecorder ops).frames.length)
    ∧ (∀ (s : RecorderState) (op : RecOp), recorderInv s → recorderInv (applyOp s op))
    ∧ (∀ (s : RecorderState) (a : Int × Int × Int × Int),
        s.recording = false → s.capture_area = some a →
        start_recording s
          = Except.ok (true,
              { s with
                  recording := true
                  frames := []
                  frame_count := 0
                  stop_event := false }))
    ∧ (∀ (s : RecorderState) (g : NDFrame),
        s.recording = true → s.stop_event = false →
        (capture_iteration s (some g)).frames = s.frames ++ [processGrab g]
        ∧ (capture_iteration s (some g)).frame_count = s.frame_count + 1)
    ∧ (∀ s : RecorderState, capture_iteration s none = s)
    ∧ (∀ s : RecorderState,
        (stop_recording s).2.frames = s.frames
        ∧ (stop_recording s).2.frame_count = s.frame_count)
    ∧ (∀ s : RecorderState,
        (clear_frames s).frames = [] ∧ (clear_frames s).frame_count = 0) := by
  have hstart : ∀ (s : RecorderState) (a : Int × Int × Int × Int),
      s.recording = false → s.capture_area = some a →
      start_recording s
        = Except.ok (true,
            { s with
                recording := true
                frames := []
                frame_count := 0
                stop_event := false }) := by
    intro s a hr ha
    simp [start_recording, hr, ha]
  have hcap : ∀ (s : RecorderState) (g : NDFrame),
      s.recording = true → s.stop_event = false →
      (capture_iteration s (some g)).frames = s.frames ++ [processGrab g]
      ∧ (capture_iteration s (some g)).frame_count = s.frame_count + 1 := by
    intro s g hr he
    simp [capture_iteration, hr, he]
  have hcapfail : ∀ s : RecorderState, capture_iteration s none = s := by
    intro s
    unfold capture_iteration
    split <;> rfl
  have hstop : ∀ s : RecorderState,
      (stop_recording s).2.frames = s.frames
      ∧ (stop_recording s).2.frame_count = s.frame_count := by
    intro s
    unfold stop_recording
    split <;> exact ⟨rfl, rfl⟩
  have hclear : ∀ s : RecorderState,
      (clear_frames s).frames = [] ∧ (clear_frames s).frame_count = 0 :=
    fun _ => ⟨rfl, rfl⟩
  have hpres : ∀ (s : RecorderState) (op : RecOp), recorderInv s → recorderInv (applyOp s op) := by
    intro s op hs
    cases op with
    | setArea x y w h => simpa [applyOp, set_capture_area, recorderInv] using hs
    | start =>
      by_cases hr : s.recording = true
      · simpa [applyOp, start_recording, hr] using hs
      · cases hcase : s.capture_area with
        | none => simpa [applyOp, start_recording, hr, hcase] using hs
        | some a => simp [applyOp, start_recording, hr, hcase, recorderInv]
    | stop =>
      by_cases hr : s.recording = true
      · simpa [applyOp, stop_recording, hr, recorderInv] using hs
      · simpa [applyOp, stop_recording, hr] using hs
    | capture g =>
      by_cases hc : (s.recording && !s.stop_event) = true
      · cases g with
        | none => simpa [applyOp, capture_iteration, hc] using hs
        | some frame =>
          have hs₂ : s.frame_count = s.frames.length := hs
          simp [applyOp, capture_iteration, hc, recorderInv, hs₂]
      · simpa [applyOp, capture_iteration, hc] using hs
    | clear => simp [applyOp, clear_frames, recorderInv]
  refine ⟨?_, hpres, hstart, hcap, hcapfail, hstop, hclear⟩
  intro ops
  have base : recorderInv initRecorder := rfl
  have run : ∀ (s : RecorderState), recorderInv s → recorderInv (runOps s ops) := by
    induction ops with
    | nil => intro s hs; exact hs
    | cons op rest ih =>
      intro s hs
      exact ih (applyOp s op) (hpres s op hs)
  exact run initRecorder base

/-- C9, witness: a concrete run — configure, start, one successful capture,
one failed grab, stop, clear — applied through the invariant theorem, plus
the capture-step conjunct instantiated at the concrete active recorder. -/
theorem recorder_frame_count_matches_frames_witness :
    get_frame_count
        (runOps initRecorder
          [RecOp.setArea 0 0 100 100, RecOp.start, RecOp.capture (some ⟨100, 100, 4, "uint8"⟩),
            RecOp.capture none, RecOp.stop, RecOp.clear])
      = (runOps initRecorder
          [RecOp.setArea 0 0 100 100, RecOp.start, RecOp.capture (some ⟨100, 100, 4, "uint8"⟩),
            RecOp.capture none, RecOp.stop, RecOp.clear]).frames.length
    ∧ ((capture_iteration activeRecorder (some ⟨100, 100, 4, "uint8"⟩)).frames
        = activeRecorder.frames ++ [processGrab ⟨100, 100, 4, "uint8"⟩]
      ∧ (capture_iteration activeRecorder (some ⟨100, 100, 4, "uint8"⟩)).frame_count
        = activeRecorder.frame_count + 1) :=
  ⟨recorder_frame_count_matches_frames.1 _,
    recorder_frame_count_matches_frames.2.2.2.1 activeRecorder ⟨100, 100, 4, "uint8"⟩ rfl rfl⟩

/-- C10, confirmed: `stop_recording` on an inactive recorder returns the
empty list — whatever frames an earlier recording left stored — and changes
no state at all; on an active recorder it returns exactly the accumulated
frames and only clears the active flag and sets the stop event, and the
returned sequence is a value the recorder no longer shares: clearing the
recorder afterwards empties its internal list while the returned sequence is
still the accumulated one. -/
theorem stop_recording_inactive_empty_active_copy :
    (∀ s : RecorderState, s.recording = false → stop_recording s = ([], s))
    ∧ (∀ s : RecorderState, s.recording = true →
        (stop_recording s).1 = s.frames
        ∧ (stop_recording s).2
          = { s with recording := false, stop_event := true }
        ∧ ((clear_frames (stop_recording s).2).frames = []
          ∧ (stop_recording s).1 = s.frames)) := by
  constructor
  · intro s hs
    simp [stop_recording, hs]
  · intro s hs
    simp [stop_recording, hs, clear_frames]

/-- C10, witness: stopping the idle recorder that still holds an earlier
session's frame returns the empty list and leaves it untouched; stopping the
active recorder returns its single accumulated frame. -/
theorem stop_recording_inactive_empty_active_copy_witness :
    stop_recording idleRecorderWithFrames = ([], idleRecorderWithFrames)
    ∧ (stop_recording activeRecorder).1 = activeRecorder.frames :=
  ⟨stop_recording_inactive_empty_active_copy.1 idleRecorderWithFrames rfl,
    (stop_recording_inactive_empty_active_copy.2 activeRecorder rfl).1⟩

end OpenCut
